import Mathlib

/-!
Shallow embedding of the HandBrake2Resilio job-queue core
(`src/api-gateway/job_queue.py`): the job record, the resource monitor,
and the scheduler (`JobQueue`) with its retry policy, persistence log and
cancellation, together with theorems checking the specification's claims.

Conventions of the embedding:
* Python `datetime.utcnow()` is a logical clock: a `Nat` counter held in
  the scheduler state, incremented at every read.
* Percentages / gigabyte figures (floats in Python) are rationals.
* Python dicts (`running_jobs`, `completed_jobs`) are association lists
  with Python-dict update semantics (update in place, insert at the end).
* The SQLite table written by `_update_job_in_db` is modelled as the log
  of successful upserts (most recent last); a write that raises inside
  `_update_job_in_db` is caught there and leaves the log unchanged.
* The code mutates one shared Python job object; the model works with
  immutable records, so wherever a mutation of `job` is observable after
  the call through a container that still references the object (the
  work queue after `cancel_job`, the two dicts after `_process_job`'s
  `except` clause), the model explicitly writes the updated record into
  that container.
-/

/-- Embeds `JobStatus` (`job_queue.py`). -/
inductive JobStatus where
  | pending
  | running
  | completed
  | failed
  | cancelled
  | retrying
deriving DecidableEq, Repr

/-- Embeds the `ConversionJob` dataclass (`job_queue.py`).  Timestamps are
ticks of the logical clock; `created_at` is always set by construction
(`__post_init__` fills it in). -/
structure ConversionJob where
  id : String
  input_path : String
  output_path : String
  quality : Int := 23
  resolution : String := "720x480"
  video_bitrate : Int := 1000
  audio_bitrate : Int := 96
  status : JobStatus := JobStatus.pending
  progress : ℚ := 0
  error_message : String := ""
  retry_count : Nat := 0
  max_retries : Nat := 3
  created_at : Nat := 0
  started_at : Option Nat := none
  completed_at : Option Nat := none
  estimated_duration : Int := 0
deriving DecidableEq, Repr

/-- The dictionary returned by `ResourceMonitor.get_system_usage`. -/
structure ResourceUsage where
  cpu_percent : ℚ
  memory_percent : ℚ
  memory_available_gb : ℚ
  disk_percent : ℚ
  disk_free_gb : ℚ
deriving DecidableEq, Repr

/-- The slice of the configuration read by `ResourceMonitor.__init__`:
`cpu_limit_percent`, `memory_limit_percent`, `max_concurrent_jobs`. -/
structure ResourceConfig where
  cpu_threshold : ℚ
  memory_threshold : ℚ
  max_jobs : Nat
deriving DecidableEq, Repr

/-- The zeroed dictionary `get_system_usage` returns from its `except`
branch when the psutil readings raise. -/
def zeroUsage : ResourceUsage :=
  { cpu_percent := 0, memory_percent := 0, memory_available_gb := 0,
    disk_percent := 0, disk_free_gb := 0 }

/-- Embeds `ResourceMonitor.get_system_usage`.  The psutil readings are an
input from the environment: `some u` when they succeed, `none` when they
raise (the `except` branch then yields the zeroed dictionary). -/
def get_system_usage (reading : Option ResourceUsage) : ResourceUsage :=
  match reading with
  | some u => u
  | none => zeroUsage

/-- Embeds `ResourceMonitor.can_start_job`, with the sampled usage passed
in explicitly. -/
def can_start_job (cfg : ResourceConfig) (usage : ResourceUsage) : Bool :=
  if usage.cpu_percent > cfg.cpu_threshold then false
  else if usage.memory_percent > cfg.memory_threshold then false
  else if usage.memory_available_gb < 2 then false
  else if usage.disk_free_gb < 5 then false
  else true

/-- Embeds `ResourceMonitor.get_optimal_job_count`, with the CPU core
count (`psutil.cpu_count()`) and the sampled CPU percentage passed in
explicitly.  Python `//` on nonnegative ints is `Nat` division. -/
def get_optimal_job_count (cfg : ResourceConfig) (cpu_count : Nat)
    (current_cpu : ℚ) : Nat :=
  if current_cpu > 70 then max 1 (cpu_count / 4)
  else if current_cpu > 50 then max 2 (cpu_count / 2)
  else min cfg.max_jobs cpu_count

/-! ### Python dicts as association lists -/

/-- `k in d` / `d[k]` lookup in a Python dict modelled as an association
list (first match wins; a dict never holds duplicate keys). -/
def lookup (l : List (String × ConversionJob)) (k : String) :
    Option ConversionJob :=
  match l with
  | [] => none
  | (k', v) :: rest => if k' = k then some v else lookup rest k

/-- `d[k] = v` on a Python dict: update in place if the key is present,
append otherwise. -/
def insertAssoc (l : List (String × ConversionJob)) (k : String)
    (v : ConversionJob) : List (String × ConversionJob) :=
  match l with
  | [] => [(k, v)]
  | (k', v') :: rest =>
      if k' = k then (k, v) :: rest else (k', v') :: insertAssoc rest k v

/-- `del d[k]` on a Python dict. -/
def eraseAssoc (l : List (String × ConversionJob)) (k : String) :
    List (String × ConversionJob) :=
  l.filter (fun p => p.1 ≠ k)

/-- Write `v` over every entry whose key is `k`, inserting nothing: the
effect, on a dict that may hold the shared Python job object under key
`k`, of mutating that object to `v`. -/
def writeAlias (l : List (String × ConversionJob)) (k : String)
    (v : ConversionJob) : List (String × ConversionJob) :=
  match l with
  | [] => []
  | (k', v') :: rest =>
      if k' = k then (k, v) :: writeAlias rest k v
      else (k', v') :: writeAlias rest k v

/-- The queue analogue of `writeAlias`: the effect on the work queue of
mutating the job object with id `k` to `v`. -/
def writeQueueAlias (l : List ConversionJob) (k : String)
    (v : ConversionJob) : List ConversionJob :=
  match l with
  | [] => []
  | q :: rest =>
      if q.id = k then v :: writeQueueAlias rest k v
      else q :: writeQueueAlias rest k v

/-! ### Scheduler state and operations -/

/-- The mutable state of a `JobQueue` instance.  `job_queue` is the FIFO
work queue (head = next item `get` returns); `db` is the log of
successful `INSERT OR REPLACE` writes (most recent last); `clock` is the
logical time `datetime.utcnow()` reads. -/
structure JobQueueState where
  job_queue : List ConversionJob
  running_jobs : List (String × ConversionJob)
  completed_jobs : List (String × ConversionJob)
  db : List ConversionJob
  clock : Nat
deriving DecidableEq, Repr

/-- The state of a freshly constructed `JobQueue` (empty queue, empty
dicts, empty jobs table). -/
def initState : JobQueueState :=
  { job_queue := [], running_jobs := [], completed_jobs := [], db := [],
    clock := 0 }

/-- Embeds `JobQueue._update_job_in_db`: the SQLite upsert either
succeeds (`dbOk = true`, appending the record to the write log) or raises
inside the method; the `except` branch swallows the error, logs it, and
returns normally with the table unchanged. -/
def update_job_in_db (dbOk : Bool) (db : List ConversionJob)
    (job : ConversionJob) : List ConversionJob :=
  if dbOk then db ++ [job] else db

/-- The outcome of one processing attempt seen by `_process_job`:
`_run_conversion` returns `True`, returns `False` (having stored a
diagnostic in `error_message` — non-zero exit, timeout, or a caught
error), or the attempt raises an exception that escapes to
`_process_job`'s own `except` clause. -/
inductive ConvOutcome where
  | success
  | failure (msg : String)
  | exception (msg : String)
deriving DecidableEq, Repr

/-- Embeds `JobQueue._process_job` for a job already taken off the work
queue.  Mirrors the method:

* set `RUNNING`, stamp `started_at`, upsert;
* on success: set `COMPLETED`, `progress = 100`, stamp `completed_at`,
  upsert, delete from `running_jobs`, insert into `completed_jobs`;
* on failure with `retry_count < max_retries`: increment `retry_count`,
  set `RETRYING`, re-enqueue at the tail, upsert, delete from
  `running_jobs`, insert into `completed_jobs`;
* on failure with retries exhausted: set `FAILED`, upsert, delete from
  `running_jobs`, insert into `completed_jobs`;
* on an uncaught exception: the `except` clause sets `FAILED` with the
  error text and upserts — it does not touch the queue and does not move
  the job between the dicts, but the mutation is visible through any dict
  entry still referencing the job object (`writeAlias`). -/
def process_job (outcome : ConvOutcome) (s : JobQueueState)
    (job : ConversionJob) : JobQueueState :=
  let job1 := { job with status := JobStatus.running,
                         started_at := some s.clock }
  let s1 := { s with clock := s.clock + 1,
                     db := update_job_in_db true s.db job1 }
  match outcome with
  | ConvOutcome.success =>
      let job2 := { job1 with status := JobStatus.completed,
                              progress := 100,
                              completed_at := some s1.clock }
      { s1 with clock := s1.clock + 1,
                db := update_job_in_db true s1.db job2,
                running_jobs := eraseAssoc s1.running_jobs job.id,
                completed_jobs := insertAssoc s1.completed_jobs job.id job2 }
  | ConvOutcome.failure msg =>
      let job2 := { job1 with error_message := msg }
      if job2.retry_count < job2.max_retries then
        let job3 := { job2 with retry_count := job2.retry_count + 1,
                                status := JobStatus.retrying }
        { s1 with job_queue := s1.job_queue ++ [job3],
                  db := update_job_in_db true s1.db job3,
                  running_jobs := eraseAssoc s1.running_jobs job.id,
                  completed_jobs := insertAssoc s1.completed_jobs job.id job3 }
      else
        let job3 := { job2 with status := JobStatus.failed }
        { s1 with db := update_job_in_db true s1.db job3,
                  running_jobs := eraseAssoc s1.running_jobs job.id,
                  completed_jobs := insertAssoc s1.completed_jobs job.id job3 }
  | ConvOutcome.exception msg =>
      let jobF := { job1 with status := JobStatus.failed,
                              error_message := msg }
      { s1 with db := update_job_in_db true s1.db jobF,
                running_jobs := writeAlias s1.running_jobs job.id jobF,
                completed_jobs := writeAlias s1.completed_jobs job.id jobF }

/-- One iteration of `JobQueue._worker_loop` that found a queue item:
dequeue; if `can_start_job` denies admission (`admitted = false`), put
the job back at the tail and sleep; otherwise run `_process_job` with the
given outcome.  An empty queue leaves the state unchanged
(`queue.Empty` → `continue`). -/
def worker_step (admitted : Bool) (outcome : ConvOutcome)
    (s : JobQueueState) : JobQueueState :=
  match s.job_queue with
  | [] => s
  | job :: rest =>
      if admitted then
        process_job outcome { s with job_queue := rest } job
      else
        { s with job_queue := rest ++ [job] }

/-- Embeds `JobQueue.add_job`: reject if the id is tracked in either
dict; otherwise enqueue, register in `running_jobs`, upsert (`dbOk` says
whether the SQLite write succeeds) and return `True`. -/
def add_job (dbOk : Bool) (s : JobQueueState) (job : ConversionJob) :
    Bool × JobQueueState :=
  if (lookup s.running_jobs job.id).isSome ||
     (lookup s.completed_jobs job.id).isSome then
    (false, s)
  else
    (true,
     { s with job_queue := s.job_queue ++ [job],
              running_jobs := insertAssoc s.running_jobs job.id job,
              db := update_job_in_db dbOk s.db job })

/-- Embeds `JobQueue.cancel_job`: if the id is in `running_jobs`, mutate
the job object to `CANCELLED`, upsert, and delete the id from
`running_jobs`; the mutated object stays referenced by any work-queue
entry (`writeQueueAlias`).  Unknown ids return `False`. -/
def cancel_job (s : JobQueueState) (job_id : String) :
    Bool × JobQueueState :=
  match lookup s.running_jobs job_id with
  | some job =>
      let jc := { job with status := JobStatus.cancelled }
      (true,
       { s with running_jobs := eraseAssoc s.running_jobs job_id,
                db := update_job_in_db true s.db jc,
                job_queue := writeQueueAlias s.job_queue job_id jc })
  | none => (false, s)

/-- Embeds `JobQueue.get_job_status`: `running_jobs` first, then
`completed_jobs`, else `None`. -/
def get_job_status (s : JobQueueState) (job_id : String) :
    Option ConversionJob :=
  match lookup s.running_jobs job_id with
  | some job => some job
  | none => lookup s.completed_jobs job_id

/-- The dictionary returned by `JobQueue.get_queue_status`. -/
structure QueueStatusInfo where
  queue_size : Nat
  running_jobs : Nat
  completed_jobs : Nat
  system_usage : ResourceUsage
  can_start : Bool
  optimal_job_count : Nat
deriving DecidableEq, Repr

/-- Embeds `JobQueue.get_queue_status`, with the psutil reading and core
count passed in explicitly (one fresh sample serves the usage,
`can_start_job`, and `get_optimal_job_count` fields). -/
def get_queue_status (cfg : ResourceConfig) (reading : Option ResourceUsage)
    (cpu_count : Nat) (s : JobQueueState) : QueueStatusInfo :=
  let usage := get_system_usage reading
  { queue_size := s.job_queue.length,
    running_jobs := s.running_jobs.length,
    completed_jobs := s.completed_jobs.length,
    system_usage := usage,
    can_start := can_start_job cfg usage,
    optimal_job_count := get_optimal_job_count cfg cpu_count
      usage.cpu_percent }

/-- Iterated worker steps in which every admitted attempt fails with
diagnostic `msg`: `failLoop msg s k` is the state after `k` iterations of
the worker loop against a converter that always fails. -/
def failLoop (msg : String) (s : JobQueueState) : Nat → JobQueueState
  | 0 => s
  | k + 1 => worker_step true (ConvOutcome.failure msg) (failLoop msg s k)

/-- The states an initially empty `JobQueue` can reach through its public
operations and worker iterations. -/
inductive Reachable : JobQueueState → Prop
  | init : Reachable initState
  | add (dbOk : Bool) (job : ConversionJob) {s : JobQueueState}
      (h : Reachable s) : Reachable (add_job dbOk s job).2
  | cancel (job_id : String) {s : JobQueueState} (h : Reachable s) :
      Reachable (cancel_job s job_id).2
  | step (admitted : Bool) (outcome : ConvOutcome) {s : JobQueueState}
      (h : Reachable s) : Reachable (worker_step admitted outcome s)

/-- No job id is tracked in both dicts at once: `add_job` only registers
ids absent from both, and `_process_job` removes a job from
`running_jobs` when it files it under `completed_jobs`. -/
def keysDisjoint (s : JobQueueState) : Prop :=
  ∀ k, lookup s.running_jobs k = none ∨ lookup s.completed_jobs k = none

/-- The record written for the running phase of an attempt on `j`
starting at time `t`. -/
def runRec (j : ConversionJob) (t : Nat) : ConversionJob :=
  { j with status := JobStatus.running, started_at := some t }

/-- The record produced when an attempt on `j` that started at time `t`
fails with `retry_count < max_retries`. -/
def retryRec (j : ConversionJob) (t : Nat) (msg : String) : ConversionJob :=
  { j with status := JobStatus.retrying, retry_count := j.retry_count + 1,
           started_at := some t, error_message := msg }

/-- The record produced when an attempt on `j` that started at time `t`
fails with retries exhausted. -/
def failRec (j : ConversionJob) (t : Nat) (msg : String) : ConversionJob :=
  { j with status := JobStatus.failed, started_at := some t,
           error_message := msg }

/-- The record produced by a successful attempt on `j` started at `t`. -/
def doneRec (j : ConversionJob) (t : Nat) : ConversionJob :=
  { j with status := JobStatus.completed, progress := 100,
           started_at := some t, completed_at := some (t + 1) }

/-- A concrete submitted job used to exercise the scheduler. -/
def jobA : ConversionJob :=
  { id := "a", input_path := "/media/in/a.mkv",
    output_path := "/media/out/a.mp4" }

/-- `jobA` with only two attempts allowed, for retry-policy scenarios. -/
def jobB : ConversionJob :=
  { id := "b", input_path := "/media/in/b.mkv",
    output_path := "/media/out/b.mp4", max_retries := 2 }

/-- The scheduler state right after `jobA` is submitted. -/
def stateA : JobQueueState := (add_job true initState jobA).2

/-- A one-job state whose queue holds `jobB` (submitted successfully). -/
def stateB : JobQueueState := (add_job true initState jobB).2

/-- A sample configuration: 80% CPU and memory ceilings, at most four
concurrent jobs. -/
def cfg0 : ResourceConfig := ⟨80, 80, 4⟩

/-! ### Basic sanity checks of the embedding -/

example : get_optimal_job_count ⟨80, 80, 8⟩ 8 30 = 8 := by decide
example : get_optimal_job_count ⟨80, 80, 8⟩ 8 80 = 2 := by decide
example : get_optimal_job_count ⟨80, 80, 1⟩ 2 30 = 1 := by decide
example : get_optimal_job_count ⟨80, 80, 1⟩ 2 60 = 2 := by decide
example : can_start_job cfg0 zeroUsage = false := by decide
example : can_start_job cfg0 ⟨50, 60, 3, 40, 8⟩ = true := by decide
example : can_start_job cfg0 ⟨95, 90, 3, 40, 1⟩ = false := by decide
example : stateA.job_queue = [jobA] := rfl
example : (add_job true stateA jobA).1 = false := rfl

/-! ### Association-list lemmas -/

theorem lookup_insertAssoc_self (l : List (String × ConversionJob))
    (k : String) (v : ConversionJob) : lookup (insertAssoc l k v) k = some v := by
  induction l with
  | nil => simp [insertAssoc, lookup]
  | cons p rest ih =>
      by_cases h : p.1 = k
      · simp [insertAssoc, h, lookup]
      · simpa [insertAssoc, h, lookup] using ih

theorem lookup_insertAssoc_ne (l : List (String × ConversionJob))
    (k k' : String) (v : ConversionJob) (h : k ≠ k') :
    lookup (insertAssoc l k v) k' = lookup l k' := by
  induction l with
  | nil => simp [insertAssoc, lookup, h]
  | cons p rest ih =>
      by_cases hp : p.1 = k
      · simp [insertAssoc, hp, lookup, h]
      · simp [insertAssoc, hp, lookup, ih]

theorem lookup_eraseAssoc_self (l : List (String × ConversionJob))
    (k : String) : lookup (eraseAssoc l k) k = none := by
  induction l with
  | nil => simp [eraseAssoc, lookup]
  | cons p rest ih =>
      by_cases h : p.1 = k
      · simpa [eraseAssoc, h, lookup] using ih
      · simpa [eraseAssoc, h, lookup] using ih

theorem lookup_eraseAssoc_ne (l : List (String × ConversionJob))
    (k k' : String) (h : k ≠ k') :
    lookup (eraseAssoc l k) k' = lookup l k' := by
  induction l with
  | nil => simp [eraseAssoc, lookup]
  | cons p rest ih =>
      obtain ⟨a, b⟩ := p
      by_cases hp : a = k
      · subst hp
        simp [eraseAssoc, lookup, h, Ne.symm h] at ih ⊢
        exact ih
      · by_cases hq : a = k'
        · subst hq
          simp [eraseAssoc, lookup, hp]
        · simp [eraseAssoc, lookup, hp, hq] at ih ⊢
          exact ih

theorem lookup_writeAlias_isSome (l : List (String × ConversionJob))
    (k k' : String) (v : ConversionJob) :
    (lookup (writeAlias l k v) k').isSome = (lookup l k').isSome := by
  induction l with
  | nil => simp [writeAlias, lookup]
  | cons p rest ih =>
      obtain ⟨a, b⟩ := p
      by_cases hp : a = k
      · subst hp
        by_cases hq : a = k'
        · subst hq
          simp [writeAlias, lookup]
        · simp [writeAlias, lookup, hq] at ih ⊢
          exact ih
      · by_cases hq : a = k'
        · subst hq
          simp [writeAlias, lookup, hp]
        · simp [writeAlias, lookup, hp, hq] at ih ⊢
          exact ih

/-! ### Step lemmas for the worker loop -/

theorem worker_step_fail_retry (msg : String) (s : JobQueueState)
    (j : ConversionJob) (hq : s.job_queue = [j])
    (h : j.retry_count < j.max_retries) :
    worker_step true (ConvOutcome.failure msg) s =
      { job_queue := [retryRec j s.clock msg],
        running_jobs := eraseAssoc s.running_jobs j.id,
        completed_jobs := insertAssoc s.completed_jobs j.id
          (retryRec j s.clock msg),
        db := s.db ++ [runRec j s.clock, retryRec j s.clock msg],
        clock := s.clock + 1 } := by
  simp [worker_step, hq, process_job, update_job_in_db, h, runRec, retryRec]

theorem worker_step_fail_exhausted (msg : String) (s : JobQueueState)
    (j : ConversionJob) (hq : s.job_queue = [j])
    (h : ¬ j.retry_count < j.max_retries) :
    worker_step true (ConvOutcome.failure msg) s =
      { job_queue := [],
        running_jobs := eraseAssoc s.running_jobs j.id,
        completed_jobs := insertAssoc s.completed_jobs j.id
          (failRec j s.clock msg),
        db := s.db ++ [runRec j s.clock, failRec j s.clock msg],
        clock := s.clock + 1 } := by
  simp [worker_step, hq, process_job, update_job_in_db, h, runRec, failRec]

theorem process_job_success (s : JobQueueState) (j : ConversionJob) :
    process_job ConvOutcome.success s j =
      { job_queue := s.job_queue,
        running_jobs := eraseAssoc s.running_jobs j.id,
        completed_jobs := insertAssoc s.completed_jobs j.id
          (doneRec j s.clock),
        db := s.db ++ [runRec j s.clock, doneRec j s.clock],
        clock := s.clock + 2 } := by
  simp [process_job, update_job_in_db, runRec, doneRec]

theorem process_job_exception (msg : String) (s : JobQueueState)
    (j : ConversionJob) :
    process_job (ConvOutcome.exception msg) s j =
      { job_queue := s.job_queue,
        running_jobs := writeAlias s.running_jobs j.id
          (failRec j s.clock msg),
        completed_jobs := writeAlias s.completed_jobs j.id
          (failRec j s.clock msg),
        db := s.db ++ [runRec j s.clock, failRec j s.clock msg],
        clock := s.clock + 1 } := by
  simp [process_job, update_job_in_db, runRec, failRec]

/-- Invariant of the always-failing worker loop on a one-job queue: as
long as retries are not exhausted, each iteration leaves exactly one
record for the job on the queue, with `retry_count` equal to the number
of completed iterations, marked `RETRYING` from the first retry on. -/
theorem failLoop_inv (msg : String) (s0 : JobQueueState)
    (j0 : ConversionJob) (hq : s0.job_queue = [j0])
    (h0 : j0.retry_count = 0) :
    ∀ k, k ≤ j0.max_retries →
      ∃ jk, (failLoop msg s0 k).job_queue = [jk] ∧
        jk.retry_count = k ∧ jk.max_retries = j0.max_retries ∧
        jk.id = j0.id ∧ (k = 0 → jk = j0) ∧
        (1 ≤ k → jk.status = JobStatus.retrying ∧
                 jk.error_message = msg) := by
  intro k
  induction k with
  | zero =>
      intro _
      exact ⟨j0, by simpa [failLoop] using hq, h0, rfl, rfl,
             fun _ => rfl, fun h => absurd h (by decide)⟩
  | succ k ih =>
      intro hk
      obtain ⟨jk, hqk, hrc, hmr, hid, _, _⟩ := ih (Nat.le_of_succ_le hk)
      have hlt : jk.retry_count < jk.max_retries := by omega
      have hstep := worker_step_fail_retry msg (failLoop msg s0 k) jk hqk hlt
      refine ⟨retryRec jk (failLoop msg s0 k).clock msg, ?_, ?_, ?_, ?_, ?_, ?_⟩
      · show (worker_step true (ConvOutcome.failure msg)
          (failLoop msg s0 k)).job_queue = _
        rw [hstep]
      · simp [retryRec, hrc]
      · simp [retryRec, hmr]
      · simp [retryRec, hid]
      · intro h; exact absurd h (by omega)
      · intro _; exact ⟨rfl, rfl⟩

theorem getLast_app_two (l : List ConversionJob) (a b : ConversionJob) :
    (l ++ [a, b]).getLast? = some b := by
  rw [List.getLast?_append_cons]
  rfl

/-- C1: a job whose converter always fails and whose `max_retries` is `N`
goes through exactly `N` retry cycles — the `k`-th failing attempt
(`k < N`) increments `retry_count` to `k + 1`, marks the job `RETRYING`,
persists that record as the latest upsert, and re-enqueues the job — and
on the attempt made with `retry_count = N` the job is marked `FAILED`
and filed with `retry_count = N`. -/
theorem retry_policy_exhausts_then_fails (msg : String)
    (s0 : JobQueueState) (j0 : ConversionJob)
    (hq : s0.job_queue = [j0]) (h0 : j0.retry_count = 0) :
    (∀ k, k < j0.max_retries →
      ∃ jr, (failLoop msg s0 (k + 1)).job_queue = [jr] ∧
        jr.retry_count = k + 1 ∧ jr.status = JobStatus.retrying ∧
        (failLoop msg s0 (k + 1)).db.getLast? = some jr ∧
        lookup (failLoop msg s0 (k + 1)).completed_jobs j0.id = some jr) ∧
    (∃ jf, (failLoop msg s0 (j0.max_retries + 1)).job_queue = [] ∧
      lookup (failLoop msg s0 (j0.max_retries + 1)).completed_jobs j0.id =
        some jf ∧
      jf.status = JobStatus.failed ∧ jf.retry_count = j0.max_retries ∧
      (failLoop msg s0 (j0.max_retries + 1)).db.getLast? = some jf) := by
  constructor
  · intro k hk
    obtain ⟨jk, hqk, hrc, hmr, hid, _, _⟩ :=
      failLoop_inv msg s0 j0 hq h0 k (le_of_lt hk)
    have hlt : jk.retry_count < jk.max_retries := by omega
    have hstep := worker_step_fail_retry msg (failLoop msg s0 k) jk hqk hlt
    refine ⟨retryRec jk (failLoop msg s0 k).clock msg, ?_, ?_, rfl, ?_, ?_⟩
    · show (worker_step true (ConvOutcome.failure msg)
        (failLoop msg s0 k)).job_queue = _
      rw [hstep]
    · simp [retryRec, hrc]
    · show (worker_step true (ConvOutcome.failure msg)
        (failLoop msg s0 k)).db.getLast? = _
      rw [hstep]
      exact getLast_app_two _ _ _
    · show lookup (worker_step true (ConvOutcome.failure msg)
        (failLoop msg s0 k)).completed_jobs j0.id = _
      rw [hstep, ← hid]
      exact lookup_insertAssoc_self _ _ _
  · obtain ⟨jN, hqN, hrc, hmr, hid, _, _⟩ :=
      failLoop_inv msg s0 j0 hq h0 j0.max_retries le_rfl
    have hge : ¬ jN.retry_count < jN.max_retries := by omega
    have hstep := worker_step_fail_exhausted msg
      (failLoop msg s0 j0.max_retries) jN hqN hge
    refine ⟨failRec jN (failLoop msg s0 j0.max_retries).clock msg,
      ?_, ?_, rfl, ?_, ?_⟩
    · show (worker_step true (ConvOutcome.failure msg)
        (failLoop msg s0 j0.max_retries)).job_queue = _
      rw [hstep]
    · show lookup (worker_step true (ConvOutcome.failure msg)
        (failLoop msg s0 j0.max_retries)).completed_jobs j0.id = _
      rw [hstep, ← hid]
      exact lookup_insertAssoc_self _ _ _
    · simp [failRec, hrc]
    · show (worker_step true (ConvOutcome.failure msg)
        (failLoop msg s0 j0.max_retries)).db.getLast? = _
      rw [hstep]
      exact getLast_app_two _ _ _

/-- Witness for C1: the scenario run with `jobB` (`max_retries = 2`)
submitted to a fresh scheduler and a converter that always fails. -/
theorem retry_policy_exhausts_then_fails_witness :
    (∀ k, k < jobB.max_retries →
      ∃ jr, (failLoop "boom" stateB (k + 1)).job_queue = [jr] ∧
        jr.retry_count = k + 1 ∧ jr.status = JobStatus.retrying ∧
        (failLoop "boom" stateB (k + 1)).db.getLast? = some jr ∧
        lookup (failLoop "boom" stateB (k + 1)).completed_jobs jobB.id =
          some jr) ∧
    (∃ jf, (failLoop "boom" stateB (jobB.max_retries + 1)).job_queue = [] ∧
      lookup (failLoop "boom" stateB (jobB.max_retries + 1)).completed_jobs
        jobB.id = some jf ∧
      jf.status = JobStatus.failed ∧ jf.retry_count = jobB.max_retries ∧
      (failLoop "boom" stateB (jobB.max_retries + 1)).db.getLast? =
        some jf) :=
  retry_policy_exhausts_then_fails "boom" stateB jobB rfl rfl

theorem writeQueueAlias_length (l : List ConversionJob) (k : String)
    (v : ConversionJob) : (writeQueueAlias l k v).length = l.length := by
  induction l with
  | nil => rfl
  | cons q rest ih =>
      by_cases h : q.id = k <;> simp [writeQueueAlias, h, ih]

/-! ### Claim theorems -/

/-- C9: a successful attempt files the job as `COMPLETED` with
`progress = 100`, a `completed_at` stamp no earlier than `started_at`,
and persists that record as the latest upsert. -/
theorem success_sets_completed_and_timestamps (s : JobQueueState)
    (j : ConversionJob) :
    ∃ jc, lookup (process_job ConvOutcome.success s j).completed_jobs
        j.id = some jc ∧
      jc.status = JobStatus.completed ∧ jc.progress = 100 ∧
      (∃ t0 t1, jc.started_at = some t0 ∧ jc.completed_at = some t1 ∧
        t0 ≤ t1) ∧
      (process_job ConvOutcome.success s j).db.getLast? = some jc := by
  refine ⟨doneRec j s.clock, ?_, rfl, rfl,
    ⟨s.clock, s.clock + 1, rfl, rfl, Nat.le_succ _⟩, ?_⟩
  · rw [process_job_success]
    exact lookup_insertAssoc_self _ _ _
  · rw [process_job_success]
    exact getLast_app_two _ _ _

/-- C2 counterexample: `jobA` has `retry_count = 0 < 3 = max_retries`,
yet when its attempt dies of an uncaught exception the job is not
re-enqueued and its tracked record reads `FAILED`, not `RETRYING`. -/
theorem exception_bypasses_retry_counterexample :
    jobA.retry_count < jobA.max_retries ∧
    (worker_step true (ConvOutcome.exception "boom") stateA).job_queue =
      [] ∧
    (get_job_status (worker_step true (ConvOutcome.exception "boom")
      stateA) "a").map ConversionJob.status = some JobStatus.failed :=
  ⟨by decide, rfl, rfl⟩

/-- C2 (amended): an uncaught exception during processing marks the job
terminally `FAILED` at once — even with retries remaining it is not set
`RETRYING`, not re-enqueued, and `retry_count` is not incremented; the
`FAILED` record (carrying the exception text) is persisted, and the
worker loop itself survives to take further steps. -/
theorem exception_marks_failed_immediately (msg : String)
    (s : JobQueueState) (j : ConversionJob)
    (h : j.retry_count < j.max_retries) :
    (process_job (ConvOutcome.exception msg) s j).job_queue =
      s.job_queue ∧
    (process_job (ConvOutcome.exception msg) s j).db.getLast? =
      some (failRec j s.clock msg) ∧
    (failRec j s.clock msg).status = JobStatus.failed ∧
    (failRec j s.clock msg).retry_count = j.retry_count ∧
    (failRec j s.clock msg).error_message = msg := by
  refine ⟨?_, ?_, rfl, rfl, rfl⟩
  · rw [process_job_exception]
  · rw [process_job_exception]
    exact getLast_app_two _ _ _

/-- Witness for the amended C2 at a concrete input. -/
theorem exception_marks_failed_immediately_witness :
    (process_job (ConvOutcome.exception "boom") initState jobA).job_queue =
      initState.job_queue ∧
    (process_job (ConvOutcome.exception "boom") initState
      jobA).db.getLast? = some (failRec jobA initState.clock "boom") ∧
    (failRec jobA initState.clock "boom").status = JobStatus.failed ∧
    (failRec jobA initState.clock "boom").retry_count =
      jobA.retry_count ∧
    (failRec jobA initState.clock "boom").error_message = "boom" :=
  exception_marks_failed_immediately "boom" initState jobA (by decide)

/-- C3 counterexample: after one failing attempt on the freshly
submitted `jobA`, the record at rest on the work queue carries status
`RETRYING`, not `PENDING`. -/
theorem requeue_keeps_retrying_counterexample :
    (worker_step true (ConvOutcome.failure "err")
      stateA).job_queue.map ConversionJob.status = [JobStatus.retrying] ∧
    JobStatus.retrying ≠ JobStatus.pending :=
  ⟨rfl, by decide⟩

/-- C3 (amended): a failed job re-enqueued under the retry policy is put
back on the queue still carrying status `RETRYING`; the status is never
reset to `PENDING`, so the job rests on the queue as `RETRYING` until a
worker dequeues it again. -/
theorem requeued_job_rests_as_retrying (msg : String)
    (s : JobQueueState) (j : ConversionJob) (hq : s.job_queue = [j])
    (h : j.retry_count < j.max_retries) :
    ∃ jr, (worker_step true (ConvOutcome.failure msg) s).job_queue =
        [jr] ∧
      jr.status = JobStatus.retrying ∧ jr.status ≠ JobStatus.pending := by
  refine ⟨retryRec j s.clock msg, ?_, rfl, by simp [retryRec]⟩
  rw [worker_step_fail_retry msg s j hq h]

/-- Witness for the amended C3 at a concrete input. -/
theorem requeued_job_rests_as_retrying_witness :
    ∃ jr, (worker_step true (ConvOutcome.failure "err")
        stateA).job_queue = [jr] ∧
      jr.status = JobStatus.retrying ∧ jr.status ≠ JobStatus.pending :=
  requeued_job_rests_as_retrying "err" stateA jobA rfl (by decide)

/-- C5: admission is denied exactly when one of the four independent
gates fails — CPU% strictly above its ceiling, memory% strictly above
its ceiling, available memory below 2 GB, or free disk below 5 GB — and
in particular the zeroed snapshot produced by a failed resource read is
always denied. -/
theorem admission_denied_iff_gate_fails (cfg : ResourceConfig)
    (u : ResourceUsage) :
    (can_start_job cfg u = false ↔
      (u.cpu_percent > cfg.cpu_threshold ∨
       u.memory_percent > cfg.memory_threshold ∨
       u.memory_available_gb < 2 ∨ u.disk_free_gb < 5)) ∧
    can_start_job cfg (get_system_usage none) = false := by
  constructor
  · unfold can_start_job
    split_ifs with h1 h2 h3 h4
    · simpa using Or.inl h1
    · simpa using Or.inr (Or.inl h2)
    · simpa using Or.inr (Or.inr (Or.inl h3))
    · simpa using Or.inr (Or.inr (Or.inr h4))
    · simp only [Bool.true_eq_false, false_iff]
      rintro (h | h | h | h)
      · exact h1 h
      · exact h2 h
      · exact h3 h
      · exact h4 h
  · unfold can_start_job get_system_usage zeroUsage
    split_ifs with h1 h2 h3 h4 <;> try rfl
    exact absurd (by norm_num) h3

/-- C7 counterexample: with 2 cores and `max_concurrent_jobs = 1`, CPU
30% yields 1 worker but the higher CPU 60% yields 2 — the advisory
concurrency is not antitone in CPU pressure. -/
theorem optimal_concurrency_not_antitone_counterexample :
    (30 : ℚ) < 60 ∧
    get_optimal_job_count ⟨80, 80, 1⟩ 2 30 = 1 ∧
    get_optimal_job_count ⟨80, 80, 1⟩ 2 60 = 2 :=
  ⟨by norm_num, by decide, by decide⟩

theorem optimal_high_le_mid (n : Nat) :
    max 1 (n / 4) ≤ max 2 (n / 2) :=
  max_le (le_max_of_le_left one_le_two)
    (le_max_of_le_right (Nat.div_le_div_left (by norm_num) (by norm_num)))

theorem optimal_mid_le_low (cfg : ResourceConfig) (n : Nat)
    (h2 : 2 ≤ n) (hm : n ≤ cfg.max_jobs) :
    max 2 (n / 2) ≤ min cfg.max_jobs n := by
  rw [min_eq_right hm]
  exact max_le h2 (Nat.div_le_self _ _)

/-- C7 (amended): provided the machine has at least 2 cores and the
configured maximum is at least the core count, the advisory concurrency
is antitone in CPU pressure; under those hypotheses CPU 30% yields the
full core count (8 with 8 cores and configured maximum ≥ 8), CPU 80%
with 8 cores yields at most 2, and the result is always at least 1.
Without the extra hypotheses antitonicity fails (see the
counterexample). -/
theorem optimal_concurrency_amended (cfg : ResourceConfig) (cores : Nat)
    (c c1 c2 : ℚ) (h2 : 2 ≤ cores) (hm : cores ≤ cfg.max_jobs)
    (hc : c1 < c2) :
    get_optimal_job_count cfg cores c2 ≤
      get_optimal_job_count cfg cores c1 ∧
    get_optimal_job_count cfg cores 30 = cores ∧
    (cores = 8 → get_optimal_job_count cfg cores 80 ≤ 2) ∧
    1 ≤ get_optimal_job_count cfg cores c := by
  refine ⟨?_, ?_, ?_, ?_⟩
  · unfold get_optimal_job_count
    by_cases ha : c2 > 70
    · rw [if_pos ha]
      by_cases hb : c1 > 70
      · rw [if_pos hb]
      · rw [if_neg hb]
        by_cases hd : c1 > 50
        · rw [if_pos hd]
          exact optimal_high_le_mid cores
        · rw [if_neg hd]
          exact le_trans (optimal_high_le_mid cores)
            (optimal_mid_le_low cfg cores h2 hm)
    · rw [if_neg ha]
      have hb : ¬ c1 > 70 := fun hcon => ha (lt_trans hcon hc)
      by_cases hd : c2 > 50
      · rw [if_pos hd, if_neg hb]
        by_cases he : c1 > 50
        · rw [if_pos he]
        · rw [if_neg he]
          exact optimal_mid_le_low cfg cores h2 hm
      · have he : ¬ c1 > 50 := fun hcon => hd (lt_trans hcon hc)
        rw [if_neg hd, if_neg hb, if_neg he]
  · unfold get_optimal_job_count
    rw [if_neg (by norm_num : ¬ (30 : ℚ) > 70),
        if_neg (by norm_num : ¬ (30 : ℚ) > 50), min_eq_right hm]
  · intro h8
    subst h8
    unfold get_optimal_job_count
    rw [if_pos (by norm_num : (80 : ℚ) > 70)]
    decide
  · unfold get_optimal_job_count
    split_ifs
    · exact le_max_left _ _
    · exact le_trans one_le_two (le_max_left _ _)
    · rw [min_eq_right hm]
      omega

/-- Witness for the amended C7 at a concrete input (8 cores, configured
maximum 8, CPU pressures 30% < 60%). -/
theorem optimal_concurrency_amended_witness :
    get_optimal_job_count ⟨80, 80, 8⟩ 8 60 ≤
      get_optimal_job_count ⟨80, 80, 8⟩ 8 30 ∧
    get_optimal_job_count ⟨80, 80, 8⟩ 8 30 = 8 ∧
    (8 = 8 → get_optimal_job_count ⟨80, 80, 8⟩ 8 80 ≤ 2) ∧
    1 ≤ get_optimal_job_count ⟨80, 80, 8⟩ 8 55 :=
  optimal_concurrency_amended ⟨80, 80, 8⟩ 8 55 30 60 (by norm_num)
    (by norm_num) (by norm_num)

/-- C8: submitting a job whose id is already tracked (in `running_jobs`
or `completed_jobs`) returns `False` and returns the scheduler state
exactly as it was — queue, both dicts, and the persistence log are
untouched, so no write is performed. -/
theorem duplicate_submit_rejected_no_mutation (dbOk : Bool)
    (s : JobQueueState) (j : ConversionJob)
    (h : (lookup s.running_jobs j.id).isSome = true ∨
         (lookup s.completed_jobs j.id).isSome = true) :
    add_job dbOk s j = (false, s) := by
  rcases h with h | h <;> simp [add_job, h]

/-- Witness for C8: re-submitting `jobA` right after its first
submission is rejected and changes nothing. -/
theorem duplicate_submit_rejected_no_mutation_witness :
    add_job true stateA jobA = (false, stateA) :=
  duplicate_submit_rejected_no_mutation true stateA jobA (Or.inl rfl)

/-- C6 counterexample: submitting `jobA` to a fresh scheduler while the
SQLite upsert fails still returns `True` — the persistence failure is
not surfaced to the caller as a failure return — even though nothing was
written to the jobs table. -/
theorem db_failure_not_surfaced_counterexample :
    (add_job false initState jobA).1 = true ∧
    (add_job false initState jobA).2.db = [] :=
  ⟨rfl, rfl⟩

/-- C6 (amended): a failed persistence write inside
`_update_job_in_db` is logged and swallowed, not surfaced: the mutating
operation (`add_job`) still returns `True`, no exception escapes (the
worker does not crash), the in-memory state — queue and both dicts — is
exactly what a successful write would have produced, and only the jobs
table is left unchanged. -/
theorem db_failure_swallowed_in_memory_authoritative
    (s : JobQueueState) (j : ConversionJob)
    (hr : (lookup s.running_jobs j.id).isSome = false)
    (hcj : (lookup s.completed_jobs j.id).isSome = false) :
    (add_job false s j).1 = true ∧
    (add_job false s j).2.db = s.db ∧
    (add_job false s j).2.job_queue = (add_job true s j).2.job_queue ∧
    (add_job false s j).2.running_jobs =
      (add_job true s j).2.running_jobs ∧
    (add_job false s j).2.completed_jobs =
      (add_job true s j).2.completed_jobs := by
  simp [add_job, hr, hcj, update_job_in_db]

/-- Witness for the amended C6 at a concrete input. -/
theorem db_failure_swallowed_in_memory_authoritative_witness :
    (add_job false initState jobA).1 = true ∧
    (add_job false initState jobA).2.db = initState.db ∧
    (add_job false initState jobA).2.job_queue =
      (add_job true initState jobA).2.job_queue ∧
    (add_job false initState jobA).2.running_jobs =
      (add_job true initState jobA).2.running_jobs ∧
    (add_job false initState jobA).2.completed_jobs =
      (add_job true initState jobA).2.completed_jobs :=
  db_failure_swallowed_in_memory_authoritative initState jobA rfl rfl

/-- C4 counterexample: cancelling the freshly submitted (still pending)
`jobA` succeeds and removes it from active tracking, yet the job's entry
is still on the work queue, so `get_queue_status` reports
`queue_size = 1`, not 0. -/
theorem cancel_leaves_queue_entry_counterexample :
    (cancel_job stateA "a").1 = true ∧
    (get_queue_status cfg0 none 4 (cancel_job stateA "a").2).queue_size =
      1 ∧
    ((cancel_job stateA "a").2.job_queue.map ConversionJob.id) = ["a"] :=
  ⟨rfl, rfl, rfl⟩

/-- C4 (amended): `cancel_job` on a tracked job returns `True`, removes
the id from active tracking (so the running count no longer includes
it), persists the `CANCELLED` record, and leaves `completed_jobs`
untouched — but it does not remove the entry from the pending work
queue: the queue length, and hence the `queued_count` reported by a
subsequent `get_queue_status`, still includes the cancelled job until a
worker dequeues it. -/
theorem cancel_removes_tracking_but_not_queue (s : JobQueueState)
    (id : String) (j : ConversionJob)
    (h : lookup s.running_jobs id = some j) :
    (cancel_job s id).1 = true ∧
    lookup (cancel_job s id).2.running_jobs id = none ∧
    (cancel_job s id).2.completed_jobs = s.completed_jobs ∧
    (cancel_job s id).2.db =
      s.db ++ [{ j with status := JobStatus.cancelled }] ∧
    (cancel_job s id).2.job_queue.length = s.job_queue.length ∧
    (∀ cfg reading cores,
      (get_queue_status cfg reading cores
        (cancel_job s id).2).queue_size = s.job_queue.length) := by
  refine ⟨?_, ?_, ?_, ?_, ?_, ?_⟩
  · simp [cancel_job, h]
  · simp only [cancel_job, h]
    exact lookup_eraseAssoc_self _ _
  · simp [cancel_job, h]
  · simp [cancel_job, h, update_job_in_db]
  · simp only [cancel_job, h]
    exact writeQueueAlias_length _ _ _
  · intro cfg reading cores
    simp only [cancel_job, h, get_queue_status]
    exact writeQueueAlias_length _ _ _

/-- Witness for the amended C4 at a concrete input. -/
theorem cancel_removes_tracking_but_not_queue_witness :
    (cancel_job stateA "a").1 = true ∧
    lookup (cancel_job stateA "a").2.running_jobs "a" = none ∧
    (cancel_job stateA "a").2.completed_jobs = stateA.completed_jobs ∧
    (cancel_job stateA "a").2.db =
      stateA.db ++ [{ jobA with status := JobStatus.cancelled }] ∧
    (cancel_job stateA "a").2.job_queue.length =
      stateA.job_queue.length ∧
    (∀ cfg reading cores,
      (get_queue_status cfg reading cores
        (cancel_job stateA "a").2).queue_size =
        stateA.job_queue.length) :=
  cancel_removes_tracking_but_not_queue stateA "a" jobA rfl

/-! ### The running/completed key-disjointness invariant -/

theorem process_job_fail_retry (msg : String) (s : JobQueueState)
    (j : ConversionJob) (h : j.retry_count < j.max_retries) :
    process_job (ConvOutcome.failure msg) s j =
      { job_queue := s.job_queue ++ [retryRec j s.clock msg],
        running_jobs := eraseAssoc s.running_jobs j.id,
        completed_jobs := insertAssoc s.completed_jobs j.id
          (retryRec j s.clock msg),
        db := s.db ++ [runRec j s.clock, retryRec j s.clock msg],
        clock := s.clock + 1 } := by
  simp [process_job, update_job_in_db, h, runRec, retryRec]

theorem process_job_fail_exhausted (msg : String) (s : JobQueueState)
    (j : ConversionJob) (h : ¬ j.retry_count < j.max_retries) :
    process_job (ConvOutcome.failure msg) s j =
      { job_queue := s.job_queue,
        running_jobs := eraseAssoc s.running_jobs j.id,
        completed_jobs := insertAssoc s.completed_jobs j.id
          (failRec j s.clock msg),
        db := s.db ++ [runRec j s.clock, failRec j s.clock msg],
        clock := s.clock + 1 } := by
  simp [process_job, update_job_in_db, h, runRec, failRec]

theorem lookup_writeAlias_none (l : List (String × ConversionJob))
    (k k' : String) (v : ConversionJob) (h : lookup l k' = none) :
    lookup (writeAlias l k v) k' = none := by
  have hs := lookup_writeAlias_isSome l k k' v
  rw [h] at hs
  simp only [Option.isSome_none] at hs
  exact Option.not_isSome_iff_eq_none.mp (by simp [hs])

theorem keysDisjoint_initState : keysDisjoint initState :=
  fun _ => Or.inl rfl

theorem keysDisjoint_add (dbOk : Bool) (job : ConversionJob)
    (s : JobQueueState) (h : keysDisjoint s) :
    keysDisjoint (add_job dbOk s job).2 := by
  cases hr : ((lookup s.running_jobs job.id).isSome ||
      (lookup s.completed_jobs job.id).isSome) with
  | true =>
      simp only [add_job, hr, if_true]
      exact h
  | false =>
      have hcn : lookup s.completed_jobs job.id = none := by
        have := (Bool.or_eq_false_iff.mp hr).2
        exact Option.not_isSome_iff_eq_none.mp (by simp [this])
      intro k
      simp only [add_job, hr, Bool.false_eq_true, if_false]
      by_cases hk : k = job.id
      · subst hk
        exact Or.inr hcn
      · rcases h k with h' | h'
        · refine Or.inl ?_
          rw [lookup_insertAssoc_ne _ _ _ _ (fun he => hk he.symm)]
          exact h'
        · exact Or.inr h'

theorem keysDisjoint_cancel (job_id : String) (s : JobQueueState)
    (h : keysDisjoint s) : keysDisjoint (cancel_job s job_id).2 := by
  cases hm : lookup s.running_jobs job_id with
  | none =>
      simp only [cancel_job, hm]
      exact h
  | some j =>
      intro k
      simp only [cancel_job, hm]
      by_cases hk : k = job_id
      · subst hk
        exact Or.inl (lookup_eraseAssoc_self _ _)
      · rcases h k with h' | h'
        · refine Or.inl ?_
          rw [lookup_eraseAssoc_ne _ _ _ (fun he => hk he.symm)]
          exact h'
        · exact Or.inr h'

theorem keysDisjoint_process (outcome : ConvOutcome) (j : ConversionJob)
    (s : JobQueueState) (h : keysDisjoint s) :
    keysDisjoint (process_job outcome s j) := by
  cases outcome with
  | success =>
      rw [process_job_success]
      intro k
      by_cases hk : k = j.id
      · subst hk
        exact Or.inl (lookup_eraseAssoc_self _ _)
      · rcases h k with h' | h'
        · refine Or.inl ?_
          rw [lookup_eraseAssoc_ne _ _ _ (fun he => hk he.symm)]
          exact h'
        · refine Or.inr ?_
          rw [lookup_insertAssoc_ne _ _ _ _ (fun he => hk he.symm)]
          exact h'
  | failure msg =>
      by_cases hlt : j.retry_count < j.max_retries
      · rw [process_job_fail_retry msg s j hlt]
        intro k
        by_cases hk : k = j.id
        · subst hk
          exact Or.inl (lookup_eraseAssoc_self _ _)
        · rcases h k with h' | h'
          · refine Or.inl ?_
            rw [lookup_eraseAssoc_ne _ _ _ (fun he => hk he.symm)]
            exact h'
          · refine Or.inr ?_
            rw [lookup_insertAssoc_ne _ _ _ _ (fun he => hk he.symm)]
            exact h'
      · rw [process_job_fail_exhausted msg s j hlt]
        intro k
        by_cases hk : k = j.id
        · subst hk
          exact Or.inl (lookup_eraseAssoc_self _ _)
        · rcases h k with h' | h'
          · refine Or.inl ?_
            rw [lookup_eraseAssoc_ne _ _ _ (fun he => hk he.symm)]
            exact h'
          · refine Or.inr ?_
            rw [lookup_insertAssoc_ne _ _ _ _ (fun he => hk he.symm)]
            exact h'
  | exception msg =>
      rw [process_job_exception]
      intro k
      rcases h k with h' | h'
      · exact Or.inl (lookup_writeAlias_none _ _ _ _ h')
      · exact Or.inr (lookup_writeAlias_none _ _ _ _ h')

theorem keysDisjoint_step (admitted : Bool) (outcome : ConvOutcome)
    (s : JobQueueState) (h : keysDisjoint s) :
    keysDisjoint (worker_step admitted outcome s) := by
  unfold worker_step
  split
  · exact h
  · split
    · exact keysDisjoint_process outcome _ _ h
    · exact h

/-- Every state an initially empty scheduler can reach keeps
`running_jobs` and `completed_jobs` key-disjoint. -/
theorem reachable_keysDisjoint (s : JobQueueState) (hs : Reachable s) :
    keysDisjoint s := by
  induction hs with
  | init => exact keysDisjoint_initState
  | add dbOk job _ ih => exact keysDisjoint_add dbOk job _ ih
  | cancel job_id _ ih => exact keysDisjoint_cancel job_id _ ih
  | step admitted outcome _ ih => exact keysDisjoint_step admitted outcome _ ih

/-- C10: in any reachable scheduler state, after a `cancel_job` that
returns `True` the cancelled id is gone from active tracking and was
never inserted into `completed_jobs`, so a subsequent `get_job_status`
for it returns not-found (the `CANCELLED` record survives only in the
persistent jobs table). -/
theorem cancelled_job_not_queryable (s : JobQueueState)
    (hs : Reachable s) (job_id : String)
    (h : (cancel_job s job_id).1 = true) :
    get_job_status (cancel_job s job_id).2 job_id = none ∧
    (cancel_job s job_id).2.completed_jobs = s.completed_jobs ∧
    lookup (cancel_job s job_id).2.completed_jobs job_id = none := by
  have hd := reachable_keysDisjoint s hs
  cases hm : lookup s.running_jobs job_id with
  | none =>
      rw [cancel_job] at h
      simp [hm] at h
  | some j =>
      have hcn : lookup s.completed_jobs job_id = none := by
        rcases hd job_id with h' | h'
        · rw [hm] at h'
          cases h'
        · exact h'
      refine ⟨?_, ?_, ?_⟩
      · simp [get_job_status, cancel_job, hm, lookup_eraseAssoc_self, hcn]
      · simp [cancel_job, hm]
      · simp [cancel_job, hm, hcn]

/-- Witness for C10: cancelling `jobA` right after submitting it to a
fresh scheduler leaves it unqueryable. -/
theorem cancelled_job_not_queryable_witness :
    get_job_status (cancel_job stateA "a").2 "a" = none ∧
    (cancel_job stateA "a").2.completed_jobs = stateA.completed_jobs ∧
    lookup (cancel_job stateA "a").2.completed_jobs "a" = none :=
  cancelled_job_not_queryable stateA
    (Reachable.add true jobA Reachable.init) "a" rfl
